import Mathlib

/-!
Shallow embedding of the `gfluent` package (files `gfluent/bq.py`,
`gfluent/gcs.py`, `gfluent/sheet.py`): three fluent builders over cloud
collaborators.  Collaborator services are modelled as records of pure
functions (oracles); actions that talk to a collaborator return the list
of collaborator calls they issue together with their outcome, so that
"raises before any collaborator call" is expressible as an empty trace.
Python exceptions are modelled by the `Err` type; Python attribute
presence (`"_x" in self.__dict__`) by `Option` fields.
-/

namespace Gfluent

/-- Python exception kinds raised by the code under study. -/
inductive Err where
  | valueError (msg : String)
  | typeError (msg : String)
  | attributeError (attr : String)
  | keyError (key : String)
  | indexError (msg : String)
  | conflict (msg : String)
deriving DecidableEq, Repr

/-- A Python argument that is either a string or some non-string object,
for setters whose first check is `isinstance(x, str)`. -/
inductive PyVal where
  | str (s : String)
  | other
deriving DecidableEq, Repr

/-- One `bigquery.SchemaField`: only the field name (and type) matter to
this code (`sheet.py` reads `x.name`). -/
structure SchemaField where
  name : String
  fieldType : String
deriving DecidableEq, Repr

/-- Characters stripped by Python `str.strip()` (ASCII whitespace model). -/
def pyIsSpace (c : Char) : Bool :=
  c == ' ' || c == '\t' || c == '\n' || c == '\r' || c == '\x0b' || c == '\x0c'

/-- Python `str.strip()`: drop leading and trailing whitespace. -/
def pystrip (s : String) : String :=
  ⟨((s.data.dropWhile pyIsSpace).reverse.dropWhile pyIsSpace).reverse⟩

/-- Python `x.endswith(t)` on strings. -/
def pyEndsWith (x t : String) : Bool :=
  t.data.isSuffixOf x.data

/-- Python `x.startswith(t)` on strings. -/
def pyStartsWith (x t : String) : Bool :=
  t.data.isPrefixOf x.data

/-- Python `c in s` for a single character. -/
def pyContainsChar (s : String) (c : Char) : Bool :=
  s.data.contains c

/-- Python `os.path.basename`: the part after the last slash. -/
def pybasename (p : String) : String :=
  ⟨(p.data.reverse.takeWhile (fun c => c ≠ '/')).reverse⟩

/-- Python `os.path.join(a, b)` for a relative second component. -/
def pyjoin (a b : String) : String :=
  if a = "" ∨ pyEndsWith a "/" then a ++ b else a ++ "/" ++ b

/-- State of `BQ` (`gfluent/bq.py`).  `_table_id` embeds the name-mangled
`_BQ__table_id`; an `Option` field is `none` exactly when the attribute is
absent from `self.__dict__`.  The collaborator client is not part of the
state; it is passed to the actions. -/
structure BQ where
  _project : String
  _table : Option String
  _table_id : Option String
  _gcs : Option String
  _sql : Option String
  _schema : Option (List SchemaField)
  _mode : String
  _create_mode : String
  _format : String
deriving DecidableEq, Repr

/-- `BQ.__init__(project)` without keyword arguments: the three defaults
of `bq.py` lines 64-66. -/
def BQ.init (project : String) : BQ :=
  { _project := project, _table := none, _table_id := none, _gcs := none,
    _sql := none, _schema := none, _mode := "WRITE_APPEND",
    _create_mode := "CREATE_IF_NEEDED", _format := "NEWLINE_DELIMITED_JSON" }

/-- `BQ.table` setter (bq.py lines 78-90): requires a string containing a
dot; stores `_table` and the fully qualified `_BQ__table_id`.  The raise
happens before either assignment, so the error branch leaves the state
unchanged. -/
def BQ.table (b : BQ) (t : PyVal) : Except Err BQ :=
  match t with
  | .str s =>
    if pyContainsChar s '.' then
      .ok { b with _table := some s, _table_id := some (b._project ++ "." ++ s) }
    else
      .error (.valueError (s ++ " is not look like dataset.table"))
  | .other => .error (.valueError "input is not look like dataset.table")

/-- `BQ.gcs` setter (bq.py lines 111-122). -/
def BQ.gcs (b : BQ) (g : PyVal) : Except Err BQ :=
  match g with
  | .str s =>
    if pyStartsWith s "gs://" then .ok { b with _gcs := some s }
    else .error (.valueError (s ++ " is not look like gs://bucket/path/"))
  | .other => .error (.valueError "input is not look like gs://bucket/path/")

/-- `BQ.sql` setter (bq.py lines 124-140). -/
def BQ.sql (b : BQ) (q : PyVal) : Except Err BQ :=
  match q with
  | .str s =>
    if pyStartsWith (pystrip s).toUpper "SELECT" || pyStartsWith (pystrip s).toUpper "WITH" then
      .ok { b with _sql := some s }
    else .error (.valueError (s ++ " is not look like SELECT or WITH ..."))
  | .other => .error (.valueError "input is not look like SELECT or WITH ...")

/-- `BQ.schema` setter (bq.py lines 142-153); the `isinstance(schema, list)`
check always passes here because the embedding types the argument. -/
def BQ.schema (b : BQ) (sch : List SchemaField) : BQ :=
  { b with _schema := some sch }

/-- The warehouse collaborator (`bigquery.Client`) as an oracle:
`queryRows sql` is `client.query(sql).result()` seen as its row list,
`queryLoadTotalRows sql dest write create` is the `total_rows` of a query
job with a destination config, `numRows id` is `get_table(id).num_rows`,
`tableFound id` is whether `get_table(id)` succeeds. -/
structure WarehouseClient where
  queryRows : String → List String
  queryLoadTotalRows : String → String → String → String → Nat
  numRows : String → Nat
  tableFound : String → Bool

/-- Result of `BQ.query`: a row iterator or an integer row count. -/
inductive QueryResult where
  | rows (r : List String)
  | count (n : Nat)
deriving DecidableEq, Repr

/-- `BQ._query` (bq.py lines 194-197). -/
def BQ._query (b : BQ) (c : WarehouseClient) : Except Err QueryResult :=
  match b._sql with
  | none => .error (.attributeError "_sql")
  | some s => .ok (.rows (c.queryRows s))

/-- `BQ._query_load` (bq.py lines 199-212): the job config reads
`__table_id` first, then `client.query` reads `_sql`; the job uses the
stored `_mode` and `_create_mode`. -/
def BQ._query_load (b : BQ) (c : WarehouseClient) : Except Err QueryResult :=
  match b._table_id with
  | none => .error (.attributeError "_BQ__table_id")
  | some tid =>
    match b._sql with
    | none => .error (.attributeError "_sql")
    | some s => .ok (.count (c.queryLoadTotalRows s tid b._mode b._create_mode))

/-- `BQ.query` (bq.py lines 214-223): branches only on the presence of
`_table` in the instance dictionary. -/
def BQ.query (b : BQ) (c : WarehouseClient) : Except Err QueryResult :=
  if b._table.isSome then BQ._query_load b c else BQ._query b c

/-- Schema part of a `LoadJobConfig`: autodetect or an explicit schema. -/
inductive SchemaSpec where
  | autodetect
  | explicit (fields : List SchemaField)
deriving DecidableEq, Repr

/-- The `bigquery.LoadJobConfig` payload this code builds. -/
structure LoadJobConfig where
  schemaSpec : SchemaSpec
  source_format : String
deriving DecidableEq, Repr

/-- A record produced from one sheet row: a Python dict as an ordered
association list (first-occurrence key order, last value wins). -/
abbrev Record := List (String × String)

/-- One collaborator call issued by `BQ.load` or `Sheet.load`. -/
inductive CollabCall where
  | loadTableFromUri (uri tableId location : String) (cfg : LoadJobConfig)
  | getTable (tableId : String)
  | sheetValuesGet (sheetId rng : String) (callIndex : Nat)
  | loadTableFromJson (records : List Record) (dest location : String) (cfg : LoadJobConfig)
deriving DecidableEq, Repr

/-- `BQ.load` (bq.py lines 225-261): presence of `_table` and `_gcs` is
checked before anything else; the job config carries autodetect when
`_schema` is absent, else the stored schema; the returned count is the
destination table's `num_rows` after the job. -/
def BQ.load (b : BQ) (c : WarehouseClient) (location : String) :
    List CollabCall × Except Err Nat :=
  match b._table, b._gcs with
  | some _, some uri =>
    let cfg : LoadJobConfig :=
      match b._schema with
      | none => { schemaSpec := .autodetect, source_format := b._format }
      | some sch => { schemaSpec := .explicit sch, source_format := b._format }
    match b._table_id with
    | none => ([], .error (.attributeError "_BQ__table_id"))
    | some tid =>
      ([.loadTableFromUri uri tid location cfg, .getTable tid], .ok (c.numRows tid))
  | _, _ => ([], .error (.valueError ".table() and .gcs() must be called before run"))

/-- An abstract local filesystem, for `gfluent/gcs.py`'s `os.path` use. -/
structure FS where
  isFile : String → Bool
  isDir : String → Bool
  listdir : String → List String

/-- State of `GCS` (`gfluent/gcs.py`).  `blobPfx` embeds the source's
remote-path attribute set by the third setter (its source name cannot be
used as a Lean identifier here). -/
structure GCS where
  _project : String
  _local : Option String
  _local_files : Option (List String)
  _bucket : Option String
  blobPfx : Option String
deriving DecidableEq, Repr

/-- `GCS.__init__(project)` without keyword arguments. -/
def GCS.init (project : String) : GCS :=
  { _project := project, _local := none, _local_files := none,
    _bucket := none, blobPfx := none }

/-- Truthiness of the `suffix` argument of `GCS.local` (Python
`if suffix:`): false for `None` and for the empty string. -/
def suffixTruthy : Option String → Bool
  | none => false
  | some t => !(t == "")

/-- `GCS.local` (gcs.py lines 35-60), named `set_local` because `local` is
a Lean keyword.  `self._local = path` is assigned before the checks, so
the post-state is returned alongside the outcome; the resolved list is a
single file, or the regular files directly inside a directory (filtered by
`suffix` when that is truthy), and is rebuilt from scratch on every call. -/
def GCS.set_local (g : GCS) (fs : FS) (path : String) (suffix : Option String) :
    GCS × Except Err Unit :=
  let g1 := { g with _local := some path }
  if fs.isFile path then
    ({ g1 with _local_files := some [path] }, .ok ())
  else if fs.isDir path then
    if suffixTruthy suffix then
      ({ g1 with _local_files := some (((fs.listdir path).filter
          (fun x => pyEndsWith x (suffix.getD "") && fs.isFile (pyjoin path x))).map
          (fun x => pyjoin path x)) }, .ok ())
    else
      ({ g1 with _local_files := some (((fs.listdir path).filter
          (fun x => fs.isFile (pyjoin path x))).map (fun x => pyjoin path x)) }, .ok ())
  else
    (g1, .error (.valueError (path ++ " is not a dir nor a file")))

/-- One object-store collaborator call. -/
inductive GCSCall where
  | bucketHandle (name : String)
  | uploadBlob (bucket blobName file : String)
  | listBlobs (bucket pfx : String)
  | downloadBlob (bucket blobName dest : String)
deriving DecidableEq, Repr

/-- The upload loop of `GCS.upload`: each iteration reads the remote-path
attribute (an absent attribute raises AttributeError at the first
iteration) and uploads the file under its basename. -/
def uploadLoop (bkt : String) (pfxO : Option String) :
    List String → List GCSCall × Except Err Unit
  | [] => ([], .ok ())
  | f :: rest =>
    match pfxO with
    | none => ([], .error (.attributeError "_prefix"))
    | some p =>
      let r := uploadLoop bkt pfxO rest
      (.uploadBlob bkt (p ++ "/" ++ pybasename f) f :: r.1, r.2)

/-- `GCS.upload` (gcs.py lines 85-94): no precondition check at all; a
missing `_bucket` or `_local_files` attribute raises AttributeError.
`client.bucket` only builds a handle but is recorded in the trace. -/
def GCS.upload (g : GCS) : List GCSCall × Except Err Unit :=
  match g._bucket with
  | none => ([], .error (.attributeError "_bucket"))
  | some bkt =>
    match g._local_files with
    | none => ([.bucketHandle bkt], .error (.attributeError "_local_files"))
    | some files =>
      let r := uploadLoop bkt g.blobPfx files
      (.bucketHandle bkt :: r.1, r.2)

/-- `GCS.download` (gcs.py lines 96-116): the only explicit check is that
the local path is a directory (ValueError otherwise); missing attributes
raise AttributeError.  `listObjects bkt p` models `list_blobs` with the
slash delimiter; names ending in a slash are skipped. -/
def GCS.download (g : GCS) (fs : FS) (listObjects : String → String → List String) :
    List GCSCall × Except Err Unit :=
  match g._local with
  | none => ([], .error (.attributeError "_local"))
  | some loc =>
    if fs.isDir loc then
      match g._bucket with
      | none => ([], .error (.attributeError "_bucket"))
      | some bkt =>
        match g.blobPfx with
        | none => ([], .error (.attributeError "_prefix"))
        | some p =>
          let dls := ((listObjects bkt p).filter (fun n => !(pyEndsWith n "/"))).map
            (fun n => GCSCall.downloadBlob bkt n (pyjoin loc (pybasename n)))
          (.bucketHandle bkt :: .listBlobs bkt p :: dls, .ok ())
    else
      ([], .error (.valueError (loc ++ " must be a dir for download")))

/-- State of `Sheet` (`gfluent/sheet.py`).  The sheets service connection
is not part of the state; its responses are passed to the actions. -/
structure Sheet where
  _sheet_id : Option String
  _worksheet : Option String
  _range : Option String
  _schema : Option (List SchemaField)
  _bq : Option BQ
deriving DecidableEq, Repr

/-- `Sheet.__init__` without keyword arguments (credential handling is
outside the state). -/
def Sheet.init : Sheet :=
  { _sheet_id := none, _worksheet := none, _range := none,
    _schema := none, _bq := none }

/-- `Sheet.schema` setter (sheet.py lines 125-134): stores the schema
locally and nothing else. -/
def Sheet.schema (s : Sheet) (sch : List SchemaField) : Sheet :=
  { s with _schema := some sch }

/-- `Sheet.bq` setter (sheet.py lines 180-196): stores the builder and, if
a schema was already stored locally, passes it onto the builder being
attached (`self._bq.schema(self._schema)`). -/
def Sheet.bq (s : Sheet) (b : BQ) : Sheet :=
  match s._schema with
  | none => { s with _bq := some b }
  | some sch => { s with _bq := some (BQ.schema b sch) }

/-- `Sheet._worksheet_request` (sheet.py lines 198-209): builds the
(spreadsheet id, range) pair of the values request; reads `_worksheet`
first, then `_sheet_id`. -/
def Sheet._worksheet_request (s : Sheet) : Except Err (String × String) :=
  match s._worksheet with
  | none => .error (.attributeError "_worksheet")
  | some w =>
    let wr := match s._range with
      | some r => w ++ "!" ++ r
      | none => w
    match s._sheet_id with
    | none => .error (.attributeError "_sheet_id")
    | some sid => .ok (sid, wr)

/-- One response of the sheets collaborator to the values request:
`none` when the response carries no value grid. -/
abbrev SheetValues := List (List String)

/-- Insertion into a Python dict seen as an ordered association list:
an existing key keeps its position and takes the new value. -/
def dictInsert : Record → String × String → Record
  | [], p => [p]
  | q :: rest, p => if q.1 = p.1 then (p.1, p.2) :: rest else q :: dictInsert rest p

/-- Python `dict(pairs)`. -/
def pydict (ps : List (String × String)) : Record :=
  ps.foldl dictInsert []

/-- First character of the header pattern of sheet.py line 214. -/
def identHead (c : Char) : Bool := c.isAlpha || c == '_'

/-- Remaining characters of the header pattern. -/
def identTail (c : Char) : Bool := c.isAlphanum || c == '_'

/-- A nonempty character list matching the body of the header pattern. -/
def isIdentChars : List Char → Bool
  | [] => false
  | c :: rest => identHead c && rest.all identTail

/-- Python `re.search` of the anchored header pattern of sheet.py line
214: the dollar anchor also matches just before one trailing newline. -/
def pymatchIdent (w : String) : Bool :=
  isIdentChars w.data ||
    (match w.data.getLast? with
     | some c => c == '\n' && isIdentChars w.data.dropLast
     | none => false)

/-- `Sheet._load` (sheet.py lines 211-244).  The values request is
executed twice: `r0` is the first response (used only for the
presence-of-values check) and `r1` the second (the data actually used; a
missing value grid there is a KeyError).  An empty grid indexes out of
range; an empty header row aborts; then the body branches on the local
`_schema`. -/
def Sheet._load (s : Sheet) (r0 r1 : Option SheetValues) :
    List CollabCall × Except Err (List Record) :=
  match Sheet._worksheet_request s with
  | .error e => ([], .error e)
  | .ok req =>
    match r0 with
    | none => ([.sheetValuesGet req.1 req.2 0], .error (.valueError "Empty Google Sheet, aborted"))
    | some _ =>
      ([CollabCall.sheetValuesGet req.1 req.2 0, CollabCall.sheetValuesGet req.1 req.2 1],
       match r1 with
       | none => .error (.keyError "values")
       | some data =>
         match data with
         | [] => .error (.indexError "list index out of range")
         | hdr :: rows =>
           if hdr = [] then
             .error (.valueError "Empty Google Sheet column name, aborted")
           else
             let illegal_word := hdr.filter (fun w => !(pymatchIdent w))
             match s._schema with
             | none =>
               match illegal_word with
               | w :: _ => .error (.valueError ("Field Name`" ++ w ++ "` is illegal header"))
               | [] => .ok (rows.map (fun d => pydict (List.zip hdr d)))
             | some sch =>
               if hdr.length ≠ sch.length then
                 .error (.valueError ("Schema defines " ++ toString sch.length
                   ++ " columns, header has " ++ toString hdr.length ++ " columns"))
               else
                 .ok (rows.map (fun d =>
                   pydict (List.zip (sch.map SchemaField.name) (d.map pystrip)))))

/-- `Sheet.load` (sheet.py lines 246-291): checks `_bq` and `_worksheet`,
then the attached builder's `_table`, then runs `_load`, then `is_exist`
(a Conflict if the destination exists), then submits the records with the
attached builder's schema/autodetect config to `load_table_from_json`,
whose destination is the builder's `_table` (not its qualified id). -/
def Sheet.load (s : Sheet) (c : WarehouseClient) (r0 r1 : Option SheetValues)
    (location : String) : List CollabCall × Except Err Unit :=
  match s._bq, s._worksheet with
  | some bq, some _ =>
    match bq._table with
    | none => ([], .error (.valueError "bigquery table must be specify for the load"))
    | some tbl =>
      let pr := Sheet._load s r0 r1
      match pr.2 with
      | .error e => (pr.1, .error e)
      | .ok records =>
        match bq._table_id with
        | none => (pr.1, .error (.attributeError "_BQ__table_id"))
        | some tid =>
          if c.tableFound tid then
            (pr.1 ++ [.getTable tid], .error (.conflict (tbl ++ " exists")))
          else
            let cfg : LoadJobConfig :=
              match bq._schema with
              | none => { schemaSpec := .autodetect, source_format := bq._format }
              | some sch => { schemaSpec := .explicit sch, source_format := bq._format }
            (pr.1 ++ [.getTable tid, .loadTableFromJson records tbl location cfg], .ok ())
  | _, _ => ([], .error (.valueError ".worksheet() and .bq() must be called before run"))

/-- Whether an error is the validation kind (Python `ValueError`, the
spec's ValidationError), as opposed to e.g. an AttributeError. -/
def Err.isValidation : Err → Bool
  | .valueError _ => true
  | _ => false

/-- The suffix filter as the claim states it: accept every name when no
suffix is given, else names ending with the suffix. -/
def sfxFilter : Option String → String → Bool
  | none, _ => true
  | some t, x => pyEndsWith x t

/-- A concrete warehouse collaborator used to instantiate theorems. -/
def wc0 : WarehouseClient :=
  { queryRows := fun _ => ["row1"], queryLoadTotalRows := fun _ _ _ _ => 5,
    numRows := fun _ => 7, tableFound := fun _ => false }

/-- A concrete filesystem: one loose file, one directory with two files
and a subdirectory inside. -/
def fs0 : FS :=
  { isFile := fun p => p == "f.txt" || p == "d/a.json" || p == "d/b.csv",
    isDir := fun p => p == "d",
    listdir := fun p => if p == "d" then ["a.json", "b.csv", "sub"] else [] }

/-- A concrete warehouse builder with table and source uri configured. -/
def bq0 : BQ :=
  { BQ.init "p" with
    _table := some "d.t", _table_id := some "p.d.t", _gcs := some "gs://b/x" }

/-- A concrete spreadsheet builder with id and worksheet configured and no
schema. -/
def sheet0 : Sheet :=
  { Sheet.init with _sheet_id := some "sheet-id", _worksheet := some "ws" }

/-- A concrete two-field schema. -/
def sch0 : List SchemaField :=
  [SchemaField.mk "f1" "STRING", SchemaField.mk "f2" "STRING"]

/-! Helper lemmas. -/

/-- Every string ends with the empty suffix (Python `x.endswith("")`). -/
theorem pyEndsWith_empty (x : String) : pyEndsWith x "" = true := by
  simp [pyEndsWith, List.isSuffixOf]

/-- Inserting an absent key appends the pair at the end. -/
theorem dictInsert_not_mem (r : Record) (p : String × String)
    (h : p.1 ∉ r.map Prod.fst) : dictInsert r p = r ++ [p] := by
  induction r with
  | nil => rfl
  | cons q rest ih =>
    simp only [List.map_cons, List.mem_cons] at h
    push_neg at h
    have hq : ¬ q.1 = p.1 := fun hh => h.1 hh.symm
    simp [dictInsert, hq, ih h.2]

/-- Folding `dictInsert` over pairs with globally distinct keys appends. -/
theorem foldl_dictInsert_nodup (ps : List (String × String)) :
    ∀ acc : Record, (acc.map Prod.fst ++ ps.map Prod.fst).Nodup →
      ps.foldl dictInsert acc = acc ++ ps := by
  induction ps with
  | nil => intro acc _; simp
  | cons p rest ih =>
    intro acc h
    simp only [List.map_cons] at h
    rw [List.nodup_append] at h
    have hnm : p.1 ∉ acc.map Prod.fst := fun hmem =>
      h.2.2 hmem (List.mem_cons_self p.1 (rest.map Prod.fst))
    rw [List.foldl_cons, dictInsert_not_mem acc p hnm]
    rw [ih (acc ++ [p]) ?_, List.append_assoc]
    · rfl
    · have : (acc ++ [p]).map Prod.fst ++ rest.map Prod.fst
          = acc.map Prod.fst ++ (p.1 :: rest.map Prod.fst) := by
        simp
      rw [this, List.nodup_append]
      exact h

/-- A pair list with distinct keys is its own Python dict. -/
theorem pydict_nodup (ps : List (String × String))
    (h : (ps.map Prod.fst).Nodup) : pydict ps = ps := by
  have := foldl_dictInsert_nodup ps [] (by simpa using h)
  simpa [pydict] using this

/-- The keys of a zip are the first-list prefix of the second list's
length. -/
theorem map_fst_zip_take (l1 l2 : List String) :
    (List.zip l1 l2).map Prod.fst = l1.take l2.length := by
  induction l1 generalizing l2 with
  | nil => simp
  | cons a t ih =>
    cases l2 with
    | nil => simp
    | cons b t2 => simp [ih]

/-- With distinct keys, the dict of a zip has exactly min-length pairs. -/
theorem pydict_zip_length (keys vals : List String) (h : keys.Nodup) :
    (pydict (List.zip keys vals)).length = min keys.length vals.length := by
  have hk : ((List.zip keys vals).map Prod.fst).Nodup := by
    rw [map_fst_zip_take]
    exact (List.take_sublist _ _).nodup h
  rw [pydict_nodup _ hk, List.length_zip]

/-! Claim theorems. -/

/-- C1: with a validated sql statement stored, `BQ.query` branches solely
on the presence of the table key: absent, it runs the plain query path and
returns the collaborator's row iterator; present, it runs the
destination-table path with the stored write and create modes and returns
the reported integer row count. -/
theorem query_branches_on_table (b : BQ) (c : WarehouseClient) (s : String)
    (hsql : b._sql = some s) :
    (b._table = none → BQ.query b c = .ok (.rows (c.queryRows s))) ∧
    (∀ t tid, b._table = some t → b._table_id = some tid →
      BQ.query b c = .ok (.count (c.queryLoadTotalRows s tid b._mode b._create_mode))) := by
  constructor
  · intro h
    simp [BQ.query, BQ._query, h, hsql]
  · intro t tid ht htid
    simp [BQ.query, BQ._query_load, ht, htid, hsql]

/-- Witness for C1: both branches at concrete builders. -/
theorem query_branches_on_table_witness :
    BQ.query { BQ.init "p" with _sql := some "select 1" } wc0 = .ok (.rows ["row1"]) ∧
    BQ.query { bq0 with _sql := some "select 1" } wc0 = .ok (.count 5) := by
  constructor
  · exact (query_branches_on_table { BQ.init "p" with _sql := some "select 1" }
      wc0 "select 1" rfl).1 rfl
  · exact (query_branches_on_table { bq0 with _sql := some "select 1" }
      wc0 "select 1" rfl).2 "d.t" "p.d.t" rfl rfl

/-- C2: `BQ.load` raises the validation error with no collaborator call
when the table or the gcs key is absent; with both present the job config
passed to the collaborator carries autodetect when the schema is absent,
and exactly the stored schema otherwise. -/
theorem load_validates_then_configures (b : BQ) (c : WarehouseClient) (loc : String) :
    ((b._table = none ∨ b._gcs = none) →
      BQ.load b c loc =
        ([], .error (.valueError ".table() and .gcs() must be called before run"))) ∧
    (∀ t uri tid, b._table = some t → b._gcs = some uri → b._table_id = some tid →
      b._schema = none →
      BQ.load b c loc =
        ([.loadTableFromUri uri tid loc { schemaSpec := .autodetect, source_format := b._format },
          .getTable tid], .ok (c.numRows tid))) ∧
    (∀ t uri tid sch, b._table = some t → b._gcs = some uri → b._table_id = some tid →
      b._schema = some sch →
      BQ.load b c loc =
        ([.loadTableFromUri uri tid loc { schemaSpec := .explicit sch, source_format := b._format },
          .getTable tid], .ok (c.numRows tid))) := by
  refine ⟨?_, ?_, ?_⟩
  · rintro (h | h)
    · simp [BQ.load, h]
    · cases ht : b._table <;> simp [BQ.load, ht, h]
  · intro t uri tid ht hg htid hs
    simp [BQ.load, ht, hg, htid, hs]
  · intro t uri tid sch ht hg htid hs
    simp [BQ.load, ht, hg, htid, hs]

/-- Witness for C2: the three cases at concrete builders. -/
theorem load_validates_then_configures_witness :
    BQ.load (BQ.init "p") wc0 "US" =
      ([], .error (.valueError ".table() and .gcs() must be called before run")) ∧
    BQ.load bq0 wc0 "US" =
      ([.loadTableFromUri "gs://b/x" "p.d.t" "US"
          { schemaSpec := .autodetect, source_format := "NEWLINE_DELIMITED_JSON" },
        .getTable "p.d.t"], .ok 7) ∧
    BQ.load (BQ.schema bq0 sch0) wc0 "US" =
      ([.loadTableFromUri "gs://b/x" "p.d.t" "US"
          { schemaSpec := .explicit sch0, source_format := "NEWLINE_DELIMITED_JSON" },
        .getTable "p.d.t"], .ok 7) := by
  refine ⟨?_, ?_, ?_⟩
  · exact (load_validates_then_configures (BQ.init "p") wc0 "US").1 (Or.inl rfl)
  · exact (load_validates_then_configures bq0 wc0 "US").2.1 "d.t" "gs://b/x" "p.d.t"
      rfl rfl rfl rfl
  · exact (load_validates_then_configures (BQ.schema bq0 sch0) wc0 "US").2.2
      "d.t" "gs://b/x" "p.d.t" sch0 rfl rfl rfl rfl

/-- C3: the table setter succeeds exactly on strings containing the dot
separator, storing the input and deriving the fully-qualified id
project-dot-input; a separator-less string or a non-string raises the
validation error, and since the raise precedes both assignments in the
source the configuration is unchanged. -/
theorem table_setter_spec (b : BQ) (s : String) :
    (pyContainsChar s '.' = true →
      BQ.table b (.str s) =
        .ok { b with _table := some s, _table_id := some (b._project ++ "." ++ s) }) ∧
    (pyContainsChar s '.' = false →
      BQ.table b (.str s) = .error (.valueError (s ++ " is not look like dataset.table"))) ∧
    BQ.table b .other = .error (.valueError "input is not look like dataset.table") := by
  refine ⟨?_, ?_, rfl⟩
  · intro h; simp [BQ.table, h]
  · intro h; simp [BQ.table, h]

/-- Witness for C3: a dotted and an undotted input at a concrete builder. -/
theorem table_setter_spec_witness :
    BQ.table (BQ.init "p") (.str "d.t") =
      .ok { BQ.init "p" with _table := some "d.t", _table_id := some "p.d.t" } ∧
    BQ.table (BQ.init "p") (.str "nodot") =
      .error (.valueError "nodot is not look like dataset.table") := by
  constructor
  · exact (table_setter_spec (BQ.init "p") "d.t").1 rfl
  · exact (table_setter_spec (BQ.init "p") "nodot").2.1 rfl

/-- C4 counterexample: attach a warehouse builder first, then call the
schema setter; the schema is stored locally but the attached builder's
schema is still absent, so no propagation happened. -/
theorem sheet_schema_no_propagation_cex :
    (Sheet.schema (Sheet.bq Sheet.init (BQ.init "p")) sch0)._schema = some sch0 ∧
    ((Sheet.schema (Sheet.bq Sheet.init (BQ.init "p")) sch0)._bq).map
      (fun b => b._schema) = some none := ⟨rfl, rfl⟩

/-- C4 amended: the schema setter stores the schema locally and leaves an
already-attached warehouse builder untouched; propagation happens only at
attach time, when `Sheet.bq` copies a previously-stored schema onto the
builder being attached. -/
theorem sheet_schema_propagates_at_attach (s : Sheet) (b : BQ) (sch : List SchemaField) :
    ((Sheet.schema s sch)._schema = some sch ∧ (Sheet.schema s sch)._bq = s._bq) ∧
    (s._schema = some sch → (Sheet.bq s b)._bq = some { b with _schema := some sch }) := by
  refine ⟨⟨rfl, rfl⟩, ?_⟩
  intro h
  simp [Sheet.bq, h, BQ.schema]

/-- Witness for C4 amended: schema set before attach is propagated. -/
theorem sheet_schema_propagates_at_attach_witness :
    (Sheet.bq (Sheet.schema Sheet.init sch0) (BQ.init "p"))._bq =
      some { BQ.init "p" with _schema := some sch0 } := by
  exact (sheet_schema_propagates_at_attach (Sheet.schema Sheet.init sch0)
    (BQ.init "p") sch0).2 rfl

/-- C5 counterexample: the object-store upload with the required bucket
key missing fails with AttributeError, not with the validation error the
claim requires. -/
theorem upload_missing_bucket_cex :
    GCS.upload (GCS.init "p") = ([], .error (.attributeError "_bucket")) ∧
    Err.isValidation (Err.attributeError "_bucket") = false := ⟨rfl, rfl⟩

/-- C5 amended: warehouse load and spreadsheet load raise the validation
error with an empty collaborator trace when their checked keys are
missing, but object-store upload and download perform no missing-key
validation: a missing key surfaces as AttributeError (still before any
transfer), and download's one explicit check (local path must be a
directory) raises the validation error before listing. -/
theorem action_validation_corrected :
    (∀ b c loc, (b._table = none ∨ b._gcs = none) →
      BQ.load b c loc =
        ([], .error (.valueError ".table() and .gcs() must be called before run"))) ∧
    (∀ s c r0 r1 loc, (s._bq = none ∨ s._worksheet = none) →
      Sheet.load s c r0 r1 loc =
        ([], .error (.valueError ".worksheet() and .bq() must be called before run"))) ∧
    (∀ g, g._bucket = none → GCS.upload g = ([], .error (.attributeError "_bucket"))) ∧
    (∀ g bkt f rest, g._bucket = some bkt → g._local_files = some (f :: rest) →
      g.blobPfx = none →
      GCS.upload g = ([.bucketHandle bkt], .error (.attributeError "_prefix"))) ∧
    (∀ g fs lo, g._local = none → GCS.download g fs lo = ([], .error (.attributeError "_local"))) ∧
    (∀ g fs lo loc, g._local = some loc → fs.isDir loc = false →
      GCS.download g fs lo = ([], .error (.valueError (loc ++ " must be a dir for download")))) := by
  refine ⟨?_, ?_, ?_, ?_, ?_, ?_⟩
  · intro b c loc h
    rcases h with h | h
    · simp [BQ.load, h]
    · cases ht : b._table <;> simp [BQ.load, ht, h]
  · intro s c r0 r1 loc h
    rcases h with h | h
    · simp [Sheet.load, h]
    · cases hb : s._bq <;> simp [Sheet.load, hb, h]
  · intro g h
    simp [GCS.upload, h]
  · intro g bkt f rest hb hf hp
    simp [GCS.upload, hb, hf, hp, uploadLoop]
  · intro g fs lo h
    simp [GCS.download, h]
  · intro g fs lo loc h hd
    simp [GCS.download, h, hd]

/-- Witness for C5 amended: each conjunct at a concrete builder state. -/
theorem action_validation_corrected_witness :
    BQ.load { BQ.init "p" with _gcs := some "gs://b/x" } wc0 "US" =
      ([], .error (.valueError ".table() and .gcs() must be called before run")) ∧
    Sheet.load Sheet.init wc0 none none "US" =
      ([], .error (.valueError ".worksheet() and .bq() must be called before run")) ∧
    GCS.upload (GCS.init "q") = ([], .error (.attributeError "_bucket")) ∧
    GCS.upload { GCS.init "p" with _bucket := some "b", _local_files := some ["f.txt"] } =
      ([.bucketHandle "b"], .error (.attributeError "_prefix")) ∧
    GCS.download (GCS.init "p") fs0 (fun _ _ => []) =
      ([], .error (.attributeError "_local")) ∧
    GCS.download { GCS.init "p" with _local := some "nodir" } fs0 (fun _ _ => []) =
      ([], .error (.valueError "nodir must be a dir for download")) := by
  refine ⟨?_, ?_, ?_, ?_, ?_, ?_⟩
  · exact action_validation_corrected.1 { BQ.init "p" with _gcs := some "gs://b/x" }
      wc0 "US" (Or.inl rfl)
  · exact action_validation_corrected.2.1 Sheet.init wc0 none none "US" (Or.inl rfl)
  · exact action_validation_corrected.2.2.1 (GCS.init "q") rfl
  · exact action_validation_corrected.2.2.2.1
      { GCS.init "p" with _bucket := some "b", _local_files := some ["f.txt"] }
      "b" "f.txt" [] rfl rfl rfl
  · exact action_validation_corrected.2.2.2.2.1 (GCS.init "p") fs0 (fun _ _ => []) rfl
  · exact action_validation_corrected.2.2.2.2.2 { GCS.init "p" with _local := some "nodir" }
      fs0 (fun _ _ => []) "nodir" rfl rfl

/-- C6: with an explicit schema set on the spreadsheet builder, header
pattern validation is skipped: the load fails with the validation error
exactly when the header column count differs from the schema field count,
and otherwise builds each record with the schema's field names as keys and
every cell value stripped of leading and trailing whitespace. -/
theorem sheet_load_with_schema (s : Sheet) (sch : List SchemaField) (sid wr : String)
    (hreq : Sheet._worksheet_request s = .ok (sid, wr)) (hsch : s._schema = some sch)
    (v0 : SheetValues) (hdr : List String) (rows : SheetValues) (hne : hdr ≠ []) :
    (hdr.length ≠ sch.length →
      (Sheet._load s (some v0) (some (hdr :: rows))).2 =
        .error (.valueError ("Schema defines " ++ toString sch.length
          ++ " columns, header has " ++ toString hdr.length ++ " columns"))) ∧
    (hdr.length = sch.length →
      (Sheet._load s (some v0) (some (hdr :: rows))).2 =
        .ok (rows.map (fun d =>
          pydict (List.zip (sch.map SchemaField.name) (d.map pystrip))))) := by
  constructor
  · intro h
    simp [Sheet._load, hreq, hsch, hne, h]
  · intro h
    simp [Sheet._load, hreq, hsch, hne, h]

/-- Witness for C6: a schema-count mismatch errors, and a matching count
builds records keyed by the schema names with stripped cells even though
the header cell violates the name pattern. -/
theorem sheet_load_with_schema_witness :
    (Sheet._load { sheet0 with _schema := some sch0 }
        (some [["1bad", "x y"], [" bob ", " 3"]])
        (some [["1bad", "x y"], [" bob ", " 3"]])).2 =
      .ok [[("f1", "bob"), ("f2", "3")]] ∧
    (Sheet._load { sheet0 with _schema := some sch0 }
        (some [["only"], ["v"]]) (some [["only"], ["v"]])).2 =
      .error (.valueError "Schema defines 2 columns, header has 1 columns") := by
  constructor
  · exact (sheet_load_with_schema { sheet0 with _schema := some sch0 } sch0
      "sheet-id" "ws" rfl rfl [["1bad", "x y"], [" bob ", " 3"]]
      ["1bad", "x y"] [[" bob ", " 3"]] (by decide)).2 rfl
  · exact (sheet_load_with_schema { sheet0 with _schema := some sch0 } sch0
      "sheet-id" "ws" rfl rfl [["only"], ["v"]]
      ["only"] [["v"]] (by decide)).1 (by decide)

/-- C7: with no schema set, the load fails with a validation error naming
the first header cell that fails the identifier pattern, and otherwise
builds exactly one record per non-header row by zipping the header names
with the row's cells. -/
theorem sheet_load_without_schema (s : Sheet) (sid wr : String)
    (hreq : Sheet._worksheet_request s = .ok (sid, wr)) (hsch : s._schema = none)
    (v0 : SheetValues) (hdr : List String) (rows : SheetValues) (hne : hdr ≠ []) :
    (∀ w ws, hdr.filter (fun x => !(pymatchIdent x)) = w :: ws →
      (Sheet._load s (some v0) (some (hdr :: rows))).2 =
        .error (.valueError ("Field Name`" ++ w ++ "` is illegal header"))) ∧
    (hdr.filter (fun x => !(pymatchIdent x)) = [] →
      (Sheet._load s (some v0) (some (hdr :: rows))).2 =
        .ok (rows.map (fun d => pydict (List.zip hdr d))) ∧
      (rows.map (fun d => pydict (List.zip hdr d))).length = rows.length) := by
  constructor
  · intro w ws hfil
    simp [Sheet._load, hreq, hsch, hne, hfil]
  · intro hfil
    refine ⟨?_, by simp⟩
    simp [Sheet._load, hreq, hsch, hne, hfil]

/-- Witness for C7: header `["name", "age"]` with two data rows yields two
records keyed `name` and `age`; an illegal header token `1bad` fails with
the error naming it. -/
theorem sheet_load_without_schema_witness :
    (Sheet._load sheet0
        (some [["name", "age"], ["bob", "3"], ["jo", "4"]])
        (some [["name", "age"], ["bob", "3"], ["jo", "4"]])).2 =
      .ok [[("name", "bob"), ("age", "3")], [("name", "jo"), ("age", "4")]] ∧
    (Sheet._load sheet0
        (some [["1bad", "age"], ["bob", "3"]])
        (some [["1bad", "age"], ["bob", "3"]])).2 =
      .error (.valueError "Field Name`1bad` is illegal header") := by
  constructor
  · exact ((sheet_load_without_schema sheet0 "sheet-id" "ws" rfl rfl
      [["name", "age"], ["bob", "3"], ["jo", "4"]]
      ["name", "age"] [["bob", "3"], ["jo", "4"]] (by decide)).2 rfl).1
  · exact (sheet_load_without_schema sheet0 "sheet-id" "ws" rfl rfl
      [["1bad", "age"], ["bob", "3"]]
      ["1bad", "age"] [["bob", "3"]] (by decide)).1 "1bad" [] rfl

/-- C8: `set_local` resolves a regular file to exactly the one-element
list, a directory to exactly the regular files directly inside it
(filtered to names ending with the suffix when one is given), raises the
validation error when the path is neither, and recomputes the resolved
list from scratch on every call with no accumulation. -/
theorem set_local_spec (g : GCS) (fs : FS) (path : String) (sfx : Option String) :
    (fs.isFile path = true →
      GCS.set_local g fs path sfx =
        ({ g with _local := some path, _local_files := some [path] }, .ok ())) ∧
    (fs.isFile path = false → fs.isDir path = true →
      GCS.set_local g fs path sfx =
        ({ g with
            _local := some path,
            _local_files := some (((fs.listdir path).filter
              (fun x => sfxFilter sfx x && fs.isFile (pyjoin path x))).map
              (fun x => pyjoin path x)) }, .ok ())) ∧
    (fs.isFile path = false → fs.isDir path = false →
      GCS.set_local g fs path sfx =
        ({ g with _local := some path },
         .error (.valueError (path ++ " is not a dir nor a file")))) ∧
    (∀ g', (fs.isFile path = true ∨ fs.isDir path = true) →
      ((GCS.set_local g fs path sfx).1)._local_files =
        ((GCS.set_local g' fs path sfx).1)._local_files) := by
  refine ⟨?_, ?_, ?_, ?_⟩
  · intro h
    simp [GCS.set_local, h]
  · intro hf hd
    cases sfx with
    | none => simp [GCS.set_local, hf, hd, suffixTruthy, sfxFilter]
    | some t =>
      by_cases ht : t = ""
      · subst ht
        have hfun : (fun x => sfxFilter (some "") x && fs.isFile (pyjoin path x))
            = (fun x => fs.isFile (pyjoin path x)) := by
          funext x
          simp [sfxFilter, pyEndsWith_empty]
        simp [GCS.set_local, hf, hd, suffixTruthy, hfun]
      · simp [GCS.set_local, hf, hd, suffixTruthy, ht, sfxFilter]
  · intro hf hd
    simp [GCS.set_local, hf, hd]
  · intro g' h
    rcases h with h | h
    · simp [GCS.set_local, h]
    · cases hf : fs.isFile path
      · cases hs : suffixTruthy sfx <;> simp [GCS.set_local, hf, h, hs]
      · simp [GCS.set_local, hf]

/-- Witness for C8: against the concrete filesystem `fs0`, a file resolves
to itself, the directory with suffix filter `.json` resolves to its one
matching regular file (the subdirectory and the csv file are excluded),
and a missing path errors; the resolved list is the same from two
different prior states. -/
theorem set_local_spec_witness :
    GCS.set_local (GCS.init "p") fs0 "f.txt" none =
      ({ GCS.init "p" with _local := some "f.txt", _local_files := some ["f.txt"] }, .ok ()) ∧
    GCS.set_local (GCS.init "p") fs0 "d" (some ".json") =
      ({ GCS.init "p" with _local := some "d", _local_files := some ["d/a.json"] }, .ok ()) ∧
    GCS.set_local (GCS.init "p") fs0 "missing" none =
      ({ GCS.init "p" with _local := some "missing" },
       .error (.valueError "missing is not a dir nor a file")) ∧
    ((GCS.set_local { GCS.init "p" with _local_files := some ["stale"] } fs0 "d" none).1)._local_files =
      ((GCS.set_local (GCS.init "p") fs0 "d" none).1)._local_files := by
  refine ⟨?_, ?_, ?_, ?_⟩
  · exact (set_local_spec (GCS.init "p") fs0 "f.txt" none).1 rfl
  · exact (set_local_spec (GCS.init "p") fs0 "d" (some ".json")).2.1 rfl rfl
  · exact (set_local_spec (GCS.init "p") fs0 "missing" none).2.2.1 rfl rfl
  · exact (set_local_spec { GCS.init "p" with _local_files := some ["stale"] }
      fs0 "d" none).2.2.2 (GCS.init "p") (Or.inr rfl)

/-- C9: the configured values request is issued twice per load: an absent
value grid in the first response aborts after a single request with the
empty-sheet error, and when the first response has values, exactly two
requests are issued and the entire outcome is computed from the second
response alone, so the data loaded is that of the second fetch. -/
theorem sheet_load_fetches_twice (s : Sheet) (sid wr : String)
    (hreq : Sheet._worksheet_request s = .ok (sid, wr)) :
    (∀ r1, Sheet._load s none r1 =
      ([.sheetValuesGet sid wr 0], .error (.valueError "Empty Google Sheet, aborted"))) ∧
    (∀ v0 v0' r1, Sheet._load s (some v0) r1 = Sheet._load s (some v0') r1) ∧
    (∀ v0 r1, (Sheet._load s (some v0) r1).1 =
      [.sheetValuesGet sid wr 0, .sheetValuesGet sid wr 1]) := by
  refine ⟨?_, ?_, ?_⟩
  · intro r1
    simp [Sheet._load, hreq]
  · intro v0 v0' r1
    simp [Sheet._load, hreq]
  · intro v0 r1
    simp [Sheet._load, hreq]

/-- Witness for C9: two differing responses, the records come from the
second; an empty first response aborts after one request. -/
theorem sheet_load_fetches_twice_witness :
    Sheet._load sheet0 (some [["stale"], ["old"]]) (some [["name"], ["new"]]) =
      Sheet._load sheet0 (some [["name"], ["new"]]) (some [["name"], ["new"]]) ∧
    Sheet._load sheet0 none (some [["name"], ["new"]]) =
      ([.sheetValuesGet "sheet-id" "ws" 0],
       .error (.valueError "Empty Google Sheet, aborted")) ∧
    (Sheet._load sheet0 (some [["stale"], ["old"]]) (some [["name"], ["new"]])).1 =
      [.sheetValuesGet "sheet-id" "ws" 0, .sheetValuesGet "sheet-id" "ws" 1] := by
  refine ⟨?_, ?_, ?_⟩
  · exact (sheet_load_fetches_twice sheet0 "sheet-id" "ws" rfl).2.1
      [["stale"], ["old"]] [["name"], ["new"]] (some [["name"], ["new"]])
  · exact (sheet_load_fetches_twice sheet0 "sheet-id" "ws" rfl).1 (some [["name"], ["new"]])
  · exact (sheet_load_fetches_twice sheet0 "sheet-id" "ws" rfl).2.2
      [["stale"], ["old"]] (some [["name"], ["new"]])

/-- C10 counterexample: with duplicate header names and a longer data row
(header count 2, cell count 3), the record collapses to a single pair, not
the min(header count, cell count) = 2 pairs the claim requires. -/
theorem ragged_dup_header_cex :
    (Sheet._load sheet0 (some [["a", "a"], ["x", "y", "z"]])
        (some [["a", "a"], ["x", "y", "z"]])).2 = .ok [[("a", "y")]] ∧
    ¬ (([("a", "y")] : Record).length
        = min (["a", "a"] : List String).length (["x", "y", "z"] : List String).length) :=
  ⟨rfl, by decide⟩

/-- C10 amended: ragged rows never raise in either branch; each record is
the Python dict of the zip of the header (or schema) names with the row's
cells, and the zip truncates at the shorter sequence, so trailing names
get no key and cells beyond the name count are dropped; duplicate names
collapse keeping the last zipped value, so the record has exactly
min(name count, cell count) pairs whenever the names are distinct. -/
theorem ragged_rows_truncate (s : Sheet) (sid wr : String)
    (hreq : Sheet._worksheet_request s = .ok (sid, wr))
    (v0 : SheetValues) (hdr : List String) (rows : SheetValues) (hne : hdr ≠ []) :
    (s._schema = none → hdr.filter (fun x => !(pymatchIdent x)) = [] →
      (Sheet._load s (some v0) (some (hdr :: rows))).2 =
        .ok (rows.map (fun d => pydict (List.zip hdr d)))) ∧
    (∀ sch, s._schema = some sch → hdr.length = sch.length →
      (Sheet._load s (some v0) (some (hdr :: rows))).2 =
        .ok (rows.map (fun d =>
          pydict (List.zip (sch.map SchemaField.name) (d.map pystrip))))) ∧
    (∀ keys vals : List String, keys.Nodup →
      (pydict (List.zip keys vals)).length = min keys.length vals.length) ∧
    (∀ keys vals : List String,
      (List.zip keys vals).map Prod.fst = keys.take vals.length) := by
  refine ⟨?_, ?_, ?_, ?_⟩
  · intro hsch hfil
    simp [Sheet._load, hreq, hsch, hne, hfil]
  · intro sch hsch h
    simp [Sheet._load, hreq, hsch, hne, h]
  · intro keys vals h
    exact pydict_zip_length keys vals h
  · intro keys vals
    exact map_fst_zip_take keys vals

/-- Witness for C10 amended: a short row keeps only the keyed prefix and a
distinct-name record has min-length many pairs. -/
theorem ragged_rows_truncate_witness :
    (Sheet._load sheet0 (some [["name", "age"], ["bob"]])
        (some [["name", "age"], ["bob"]])).2 = .ok [[("name", "bob")]] ∧
    (pydict (List.zip ["name", "age"] ["bob"])).length = min 2 1 := by
  constructor
  · exact (ragged_rows_truncate sheet0 "sheet-id" "ws" rfl
      [["name", "age"], ["bob"]] ["name", "age"] [["bob"]] (by decide)).1 rfl rfl
  · exact (ragged_rows_truncate sheet0 "sheet-id" "ws" rfl
      [] ["name", "age"] [] (by decide)).2.2.1 ["name", "age"] ["bob"] (by decide)

end Gfluent
